import Mathlib

/-!
Shallow embedding of the stock-sentiment-analysis data pipeline
(`src/data_loader.py` and `scripts/preprocess.py`) and proofs of the
specification's claims about it.

Modelling conventions:
* A Python string is a list of Unicode code points (`PyStr := List Nat`).
* A pandas `DataFrame` is an ordered list of named columns, each an ordered
  list of cell values; row `i` is the `i`-th entry of every column.
* A cell value is a raw string, an integer, a timestamp (wall-clock value
  together with an optional timezone offset), or the explicit missing
  marker (`NaN`/`NaT`/`None`).
* `pd.to_datetime` parses each element independently; the element parser for
  raw strings is an explicit parameter `parse` (pandas' date grammar is
  external library code, not part of this repository).
* Python functions that mutate their argument in place are embedded in a
  state-passing style: they return the post-call state of the argument
  object together with the function's result (`DataFrame × Except ...`).
-/

/-- A Python string, as its sequence of Unicode code points. -/
abbrev PyStr := List Nat

/-- Code-point image of a Lean string literal, used to write the Python
string constants of the source. -/
def pstr (s : String) : PyStr := s.data.map Char.toNat

/-- A scalar cell value of a pandas table. -/
inductive Value where
  | str (s : PyStr)
  | int (n : Int)
  | timestamp (t : Int) (tz : Option Int)
  | missing
deriving DecidableEq, Repr

/-- Tests for the missing marker (pandas `isnull`). -/
def Value.isMissing : Value → Bool
  | Value.missing => true
  | _ => false

/-- A pandas `DataFrame`: ordered named columns of cell values. -/
structure DataFrame where
  cols : List (PyStr × List Value)
deriving DecidableEq, Repr

/-- The column labels, in order (`df.columns`). -/
def DataFrame.columns (df : DataFrame) : List PyStr := df.cols.map (fun p => p.1)

/-- Number of rows: the length of the first column (0 for no columns). -/
def DataFrame.nRows (df : DataFrame) : Nat :=
  match df.cols with
  | [] => 0
  | p :: _ => p.2.length

/-- Well-formedness: every column has the same length. -/
def DataFrame.Aligned (df : DataFrame) : Prop :=
  ∀ p ∈ df.cols, p.2.length = df.nRows

/-- Column selection `df[c]` (first matching label), `[]` when absent. -/
def DataFrame.getColD (df : DataFrame) (c : PyStr) : List Value :=
  (Option.map (fun p => p.2) (df.cols.find? (fun p => decide (p.1 = c)))).getD []

/-- Column assignment `df[c] = vs`: replace the matching columns, or append
a new column when the label is absent. -/
def DataFrame.setCol (df : DataFrame) (c : PyStr) (vs : List Value) : DataFrame :=
  if c ∈ df.columns then
    ⟨df.cols.map (fun p => if p.1 = c then (c, vs) else p)⟩
  else
    ⟨df.cols ++ [(c, vs)]⟩

/-- The cell at column `c`, row `i` (missing when out of range). -/
def DataFrame.cell (df : DataFrame) (c : PyStr) (i : Nat) : Value :=
  (df.getColD c).getD i Value.missing

/-- Row `i` as an association list over the column labels. -/
def DataFrame.row (df : DataFrame) (i : Nat) : List (PyStr × Value) :=
  df.cols.map (fun p => (p.1, p.2.getD i Value.missing))

/-- The rows of the table, in order. -/
def DataFrame.rows (df : DataFrame) : List (List (PyStr × Value)) :=
  (List.range df.nRows).map df.row

/-- Emptiness test `df.empty`: the table has no rows. -/
def DataFrame.isEmpty (df : DataFrame) : Bool := decide (df.nRows = 0)

/-- Lookup of a label in a row association list (first match). -/
def rowGet (r : List (PyStr × Value)) (c : PyStr) : Value :=
  (Option.map (fun p => p.2) (r.find? (fun p => decide (p.1 = c)))).getD Value.missing

/-! ### `scripts/preprocess.py`: standardize_column_names -/

/-- One code point of Python `str.lower()` (ASCII range, as exercised by the
pipeline's column names). -/
def lowerCode (n : Nat) : Nat := if 65 ≤ n ∧ n ≤ 90 then n + 32 else n

/-- Python `str.lower()` on a whole string. -/
def pyLower (s : PyStr) : PyStr := s.map lowerCode

/-- Python `str.replace(" ", "_")`: every space becomes an underscore. -/
def replaceSpace (s : PyStr) : PyStr := s.map (fun n => if n = 32 then 95 else n)

/-- The column renamer of `standardize_column_names`:
`lambda x: str(x).lower().replace(" ", "_")`. -/
def standardizeName (s : PyStr) : PyStr := replaceSpace (pyLower s)

/-- Embedding of `standardize_column_names`: rename every column via `standardizeName`
(`df.rename(columns=...)` returns a new frame, values untouched). -/
def standardize_column_names (df : DataFrame) : DataFrame :=
  ⟨df.cols.map (fun p => (standardizeName p.1, p.2))⟩

theorem stdCode_idem (n : Nat) :
    (if lowerCode (if lowerCode n = 32 then 95 else lowerCode n) = 32 then 95
     else lowerCode (if lowerCode n = 32 then 95 else lowerCode n)) =
      (if lowerCode n = 32 then 95 else lowerCode n) := by
  unfold lowerCode
  split_ifs <;> omega

theorem standardizeName_idem (s : PyStr) :
    standardizeName (standardizeName s) = standardizeName s := by
  unfold standardizeName replaceSpace pyLower
  simp only [List.map_map]
  apply List.map_congr_left
  intro n _
  simp only [Function.comp]
  exact stdCode_idem n

/-! ### `pd.to_datetime` -/

/-- A string-to-timestamp element parser: pandas' date grammar, kept
abstract (external library code). `none` means the string is unparseable. -/
abbrev DateParser := PyStr → Option (Int × Option Int)

/-- Element-wise behaviour of `pd.to_datetime`: the missing marker stays
missing (`NaT`), timestamps pass through, integers are epoch offsets, and
raw strings go through the date grammar (`none` = parse failure). -/
def toDatetimeElem (parse : DateParser) : Value → Option Value
  | Value.missing => some Value.missing
  | Value.timestamp t tz => some (Value.timestamp t tz)
  | Value.int n => some (Value.timestamp n none)
  | Value.str s => Option.map (fun p => Value.timestamp p.1 p.2) (parse s)

/-- Column-wise `pd.to_datetime(vs)` with the default strict policy: fails (raises) as
soon as one element fails to parse. -/
def toDatetimeStrict (parse : DateParser) (vs : List Value) : Option (List Value) :=
  vs.mapM (toDatetimeElem parse)

/-- Column-wise `pd.to_datetime(vs, errors="coerce")`: unparseable elements become the
missing marker (`NaT`); never fails. -/
def toDatetimeCoerce (parse : DateParser) (vs : List Value) : List Value :=
  vs.map (fun v => (toDatetimeElem parse v).getD Value.missing)

/-- Embedding of `.dt.tz_localize(None)`: strip the timezone offset, keeping wall-clock
time; timezone-naive elements (and `NaT`) are unchanged. -/
def tzLocalizeNone (vs : List Value) : List Value :=
  vs.map (fun v =>
    match v with
    | Value.timestamp t _ => Value.timestamp t none
    | w => w)

/-! ### Error values raised by the pipeline -/

/-- Diagnostic payload of a failed validation, one constructor per message
shape of `validate_data`. -/
inductive VError where
  | missingCols (cols : List PyStr)
  | nullValues (counts : List (PyStr × Nat))
  | badDates (sample : List Value) (ellipsis : Bool)
deriving DecidableEq, Repr

/-- The exceptions the pipeline raises. -/
inductive PyError where
  | fileNotFound (path : PyStr)
  | emptyData
  | validationError (e : Option VError)
  | keyError (cols : List PyStr)
  | valueErrorColNotFound (col : PyStr)
  | valueErrorEmptyInput
  | parseError
deriving DecidableEq, Repr

/-! ### `scripts/preprocess.py`: parse_dates -/

/-- Embedding of `parse_dates(df, date_col="date")`, in state-passing style: the first
component is the state of the caller's argument object after the call (the
function assigns `df[date_col] = ...` in place), the second the result.
Strict parsing: `pd.to_datetime(df[date_col]).dt.tz_localize(None)`; the
in-place assignment happens only if parsing did not raise. -/
def parse_dates (parse : DateParser) (df : DataFrame) (date_col : PyStr) :
    DataFrame × Except PyError DataFrame :=
  if date_col ∈ df.columns then
    match toDatetimeStrict parse (df.getColD date_col) with
    | none => (df, Except.error PyError.parseError)
    | some parsed =>
        let df2 := df.setCol date_col (tzLocalizeNone parsed)
        (df2, Except.ok df2)
  else
    (df, Except.error (PyError.valueErrorColNotFound date_col))

/-! ### `scripts/preprocess.py`: handle_missing_values -/

/-- Keep exactly the entries of `vs` whose index satisfies `keepIdx`. -/
def filterIdx (keepIdx : Nat → Bool) : List Value → List Value
  | [] => []
  | v :: vs =>
    if keepIdx 0 then v :: filterIdx (fun i => keepIdx (i + 1)) vs
    else filterIdx (fun i => keepIdx (i + 1)) vs

/-- Row mask of `df.dropna(subset=subset)`: keep row `i` iff no subset
column is missing there. -/
def keepRow (df : DataFrame) (subset : List PyStr) (i : Nat) : Bool :=
  subset.all (fun c => !(df.cell c i).isMissing)

/-- Embedding of `df.dropna(subset=subset)`: drop every row with a missing value in a
subset column (assuming every subset label exists; the caller checks). -/
def DataFrame.dropna (df : DataFrame) (subset : List PyStr) : DataFrame :=
  ⟨df.cols.map (fun p => (p.1, filterIdx (keepRow df subset) p.2))⟩

/-- The default `required_cols` of `handle_missing_values`. -/
def default_required : List PyStr := [pstr "date", pstr "headline", pstr "stock"]

/-- Embedding of `handle_missing_values(df, required_cols=None)`: drop rows with missing
values in the required columns. `df.dropna(subset=...)` raises a `KeyError`
naming the labels absent from the table. (The row-count logging is a pure
diagnostic and is not modelled.) -/
def handle_missing_values (df : DataFrame) (required_cols : Option (List PyStr)) :
    Except PyError DataFrame :=
  let rc := required_cols.getD default_required
  let missing := rc.filter (fun c => decide (c ∉ df.columns))
  if missing = [] then Except.ok (df.dropna rc)
  else Except.error (PyError.keyError missing)

/-! ### `src/data_loader.py`: validate_data -/

/-- The required schema of `validate_data`. -/
def required_columns : List PyStr :=
  [pstr "headline", pstr "url", pstr "publisher", pstr "date", pstr "stock"]

/-- Distinct elements in order of first appearance (`pandas.unique`). -/
def firstDedup : List Value → List Value
  | [] => []
  | a :: l => a :: firstDedup (l.filter (fun x => decide (x ≠ a)))
termination_by l => l.length
decreasing_by
  simp only [List.length_cons]
  exact Nat.lt_succ_of_le (List.length_filter_le _ _)

/-- Embedding of `validate_data(df)`: required-column presence, then null counts over the
required columns, then lenient date coercion with a sample of at most 5
distinct unparseable raw values (ellipsis flag when more than 5 exist).
Returns `(is_valid, error_message)`. -/
def validate_data (parse : DateParser) (df : DataFrame) : Bool × Option VError :=
  let missing_cols := required_columns.filter (fun c => decide (c ∉ df.columns))
  if missing_cols ≠ [] then
    (false, some (VError.missingCols missing_cols))
  else
    let null_counts :=
      (required_columns.map (fun c => (c, (df.getColD c).countP Value.isMissing))).filter
        (fun p => decide (0 < p.2))
    if null_counts ≠ [] then
      (false, some (VError.nullValues null_counts))
    else
      -- positions where pd.to_datetime(df["date"], errors="coerce") is null:
      -- element-wise, exactly the values whose lenient coercion is missing
      let bad_dates :=
        firstDedup ((df.getColD (pstr "date")).filter
          (fun v => ((toDatetimeElem parse v).getD Value.missing).isMissing))
      if bad_dates ≠ [] then
        (false, some (VError.badDates (bad_dates.take 5) (decide (5 < bad_dates.length))))
      else
        (true, none)

/-! ### `src/data_loader.py`: load_data -/

/-- Embedding of `load_data(path, validate)`. The file system and CSV reader are modelled
as a map from paths to the parsed table (`none` = no such file); `load_data`
itself checks existence, rejects tables with no rows, optionally validates,
and unconditionally re-coerces the `date` column leniently (`df["date"]`
raises a `KeyError` when that column is absent). -/
def load_data (parse : DateParser) (fs : PyStr → Option DataFrame)
    (path : PyStr) (validate : Bool) : Except PyError DataFrame :=
  match fs path with
  | none => Except.error (PyError.fileNotFound path)
  | some df =>
    if df.isEmpty then Except.error PyError.emptyData
    else
      let vr := validate_data parse df
      if validate && !vr.1 then Except.error (PyError.validationError vr.2)
      else
        if (pstr "date") ∈ df.columns then
          Except.ok (df.setCol (pstr "date")
            (toDatetimeCoerce parse (df.getColD (pstr "date"))))
        else Except.error (PyError.keyError [pstr "date"])

/-! ### `scripts/preprocess.py`: preprocess_data -/

/-- Embedding of `df["headline"].str.len()` element-wise: character count for strings,
missing (`NaN`) otherwise. -/
def strLen : Value → Value
  | Value.str s => Value.int (Int.ofNat s.length)
  | _ => Value.missing

/-- The body of `preprocess_data` after the defensive copy: standardize,
parse dates strictly, drop incomplete rows, add `headline_length`, then
re-coerce `date` strictly. The plotting and printing calls are diagnostics
without effect on the table and are not modelled; the column accesses they
perform are (a `KeyError` when `publisher` is absent). -/
def preprocess_body (parse : DateParser) (df0 : DataFrame) : Except PyError DataFrame :=
  let df1 := standardize_column_names df0
  match (parse_dates parse df1 (pstr "date")).2 with
  | Except.error e => Except.error e
  | Except.ok df2 =>
    match handle_missing_values df2 none with
    | Except.error e => Except.error e
    | Except.ok df3 =>
      if (pstr "headline") ∈ df3.columns then
        let df4 := df3.setCol (pstr "headline_length")
          ((df3.getColD (pstr "headline")).map strLen)
        if (pstr "publisher") ∈ df4.columns then
          if (pstr "date") ∈ df4.columns then
            match toDatetimeStrict parse (df4.getColD (pstr "date")) with
            | none => Except.error PyError.parseError
            | some vs => Except.ok (df4.setCol (pstr "date") vs)
          else Except.error (PyError.keyError [pstr "date"])
        else Except.error (PyError.keyError [pstr "publisher"])
      else Except.error (PyError.keyError [pstr "headline"])

/-- Embedding of `preprocess_data(df)`, in state-passing style: first component is the
caller's argument object after the call. The function rejects empty input,
then takes a defensive copy (`df = df.copy()`) and runs every further step
on the copy, so the caller's object is returned unchanged whether the body
succeeds or fails. -/
def preprocess_data (parse : DateParser) (df : DataFrame) :
    DataFrame × Except PyError DataFrame :=
  if df.isEmpty then (df, Except.error PyError.valueErrorEmptyInput)
  else (df, preprocess_body parse df)

/-! ### Theorems for the claims -/

/-- C7: `standardize_column_names` is idempotent: applying it twice to any
table yields the same table as applying it once. -/
theorem C7_standardize_idempotent (df : DataFrame) :
    standardize_column_names (standardize_column_names df) =
      standardize_column_names df := by
  unfold standardize_column_names
  simp [List.map_map, Function.comp, standardizeName_idem]

/-- C3: `preprocess_data` never mutates the caller's table: whether the body
succeeds or fails, the caller's object (the first component of the
state-passing result) is the original table. The empty-input check happens
before any table operation and the body runs on a defensive copy. -/
theorem C3_preprocess_data_no_mutation (parse : DateParser) (df : DataFrame)
    (h : df.isEmpty = false) :
    (preprocess_data parse df).1 = df := by
  unfold preprocess_data
  rw [h]
  simp

/-- Witness for C3 at a concrete one-row table. -/
theorem C3_witness :
    (DataFrame.mk [(pstr "date", [Value.str (pstr "2023-01-01")])]).isEmpty = false ∧
      (preprocess_data (fun _ => none)
        (DataFrame.mk [(pstr "date", [Value.str (pstr "2023-01-01")])])).1 =
        DataFrame.mk [(pstr "date", [Value.str (pstr "2023-01-01")])] :=
  ⟨by decide, C3_preprocess_data_no_mutation (fun _ => none) _ (by decide)⟩

/-- C4: when at least one required column is absent, `validate_data` returns
invalid with exactly the missing labels, and no further check is performed:
the result does not depend on the date parser (nor, therefore, on any null
counts or date values it would inspect). -/
theorem C4_validate_data_missing_columns (parse : DateParser) (df : DataFrame)
    (h : ∃ c ∈ required_columns, c ∉ df.columns) :
    validate_data parse df =
      (false, some (VError.missingCols
        (required_columns.filter (fun c => decide (c ∉ df.columns))))) ∧
      ∀ parse2 : DateParser, validate_data parse2 df = validate_data parse df := by
  have hne : required_columns.filter (fun c => decide (c ∉ df.columns)) ≠ [] := by
    intro hcon
    obtain ⟨c, hc, hnc⟩ := h
    have := List.filter_eq_nil_iff.mp hcon c hc
    simp only [decide_eq_true_eq] at this
    exact this hnc
  have hmain : ∀ p : DateParser, validate_data p df =
      (false, some (VError.missingCols
        (required_columns.filter (fun c => decide (c ∉ df.columns))))) := by
    intro p
    simp only [validate_data]
    rw [if_pos hne]
  exact ⟨hmain parse, fun parse2 => (hmain parse2).trans (hmain parse).symm⟩

/-- Witness for C4: a table with no columns at all is reported as missing
every required column. -/
theorem C4_witness :
    validate_data (fun _ => none) (DataFrame.mk []) =
      (false, some (VError.missingCols required_columns)) := by
  have h := (C4_validate_data_missing_columns (fun _ => none) (DataFrame.mk [])
    ⟨pstr "headline", by decide, by decide⟩).1
  rw [h]
  decide

/-- C5: `load_data` on a path with no file fails with file-not-found, and on
a file whose parsed table has no rows fails with empty-data; in both cases
the result is the error alone (the embedding is a pure `Except`, so no
partial table is returned). -/
theorem C5_load_data_missing_or_empty (parse : DateParser)
    (fs : PyStr → Option DataFrame) (path : PyStr) (b : Bool) :
    (fs path = none →
        load_data parse fs path b = Except.error (PyError.fileNotFound path)) ∧
      (∀ df, fs path = some df → df.isEmpty = true →
        load_data parse fs path b = Except.error PyError.emptyData) := by
  constructor
  · intro h
    unfold load_data
    rw [h]
  · intro df h he
    unfold load_data
    rw [h]
    simp [he]

/-- Witness for C5: a one-file file system whose only file parses to a table
with a column but zero rows. -/
theorem C5_witness :
    load_data (fun _ => none)
        (fun p => if p = pstr "data.csv" then
          some (DataFrame.mk [(pstr "date", [])]) else none)
        (pstr "missing.csv") true =
      Except.error (PyError.fileNotFound (pstr "missing.csv")) ∧
    load_data (fun _ => none)
        (fun p => if p = pstr "data.csv" then
          some (DataFrame.mk [(pstr "date", [])]) else none)
        (pstr "data.csv") true =
      Except.error PyError.emptyData :=
  ⟨(C5_load_data_missing_or_empty (fun _ => none) _ _ true).1 (by decide),
    (C5_load_data_missing_or_empty (fun _ => none) _ _ true).2
      (DataFrame.mk [(pstr "date", [])]) (by decide) (by decide)⟩

/-- C9: `handle_missing_values` rejects the call with a `KeyError` naming the
absent labels whenever some required column (explicit or from the default
`["date", "headline", "stock"]`) is not a column of the table. -/
theorem C9_handle_missing_values_keyerror (df : DataFrame)
    (rc : Option (List PyStr))
    (h : ∃ c ∈ rc.getD default_required, c ∉ df.columns) :
    handle_missing_values df rc =
      Except.error (PyError.keyError
        ((rc.getD default_required).filter (fun c => decide (c ∉ df.columns)))) := by
  have hne : (rc.getD default_required).filter (fun c => decide (c ∉ df.columns)) ≠ [] := by
    intro hcon
    obtain ⟨c, hc, hnc⟩ := h
    have := List.filter_eq_nil_iff.mp hcon c hc
    simp only [decide_eq_true_eq] at this
    exact this hnc
  simp only [handle_missing_values]
  rw [if_neg hne]

/-- Witness for C9: the default required columns against a table that lacks
`date`. -/
theorem C9_witness :
    handle_missing_values
        (DataFrame.mk [(pstr "headline", [Value.str (pstr "x")]),
          (pstr "stock", [Value.str (pstr "AAPL")])]) none =
      Except.error (PyError.keyError [pstr "date"]) := by
  have h := C9_handle_missing_values_keyerror
    (DataFrame.mk [(pstr "headline", [Value.str (pstr "x")]),
      (pstr "stock", [Value.str (pstr "AAPL")])]) none
    ⟨pstr "date", by decide, by decide⟩
  rw [h]
  rfl

/-- C10: `load_data` with validation disabled, on an existing non-empty file
whose table has no `date` column, fails at the unconditional date-coercion
step (`df["date"]` raises a `KeyError`) instead of returning the table. -/
theorem C10_load_data_no_date_column (parse : DateParser)
    (fs : PyStr → Option DataFrame) (path : PyStr) (df : DataFrame)
    (hf : fs path = some df) (hne : df.isEmpty = false)
    (hd : (pstr "date") ∉ df.columns) :
    load_data parse fs path false = Except.error (PyError.keyError [pstr "date"]) := by
  unfold load_data
  rw [hf]
  simp [hne, hd]

/-- Witness for C10: a non-empty one-column table without `date`. -/
theorem C10_witness :
    load_data (fun _ => none)
        (fun _ => some (DataFrame.mk [(pstr "headline", [Value.str (pstr "x")])]))
        (pstr "f.csv") false =
      Except.error (PyError.keyError [pstr "date"]) :=
  C10_load_data_no_date_column (fun _ => none) _ (pstr "f.csv") _
    rfl (by decide) (by decide)

/-! ### Strict `to_datetime` semantics (helper lemmas) -/

theorem mapM_option_eq_none {α β : Type} (f : α → Option β) (vs : List α)
    (h : ∃ v ∈ vs, f v = none) : vs.mapM f = none := by
  induction vs with
  | nil => simp at h
  | cons a l ih =>
    obtain ⟨v, hv, hfv⟩ := h
    rcases List.mem_cons.mp hv with heq | hmem
    · subst heq
      rw [List.mapM_cons, hfv]
      rfl
    · have hl := ih ⟨v, hmem, hfv⟩
      rw [List.mapM_cons, hl]
      cases hfa : f a <;> rfl

theorem mapM_option_eq_some {α β : Type} (f : α → Option β) (d : β) (vs : List α)
    (h : ∀ v ∈ vs, (f v).isSome) :
    vs.mapM f = some (vs.map (fun v => (f v).getD d)) := by
  induction vs with
  | nil => rfl
  | cons a l ih =>
    rw [List.mapM_cons]
    obtain ⟨b, hb⟩ := Option.isSome_iff_exists.mp (h a (by simp))
    rw [hb, ih (fun v hv => h v (by simp [hv]))]
    simp [hb]

/-- C8: `parse_dates` mutates its argument in place: when the target column
exists and every value parses, the post-call state of the caller's table and
the returned table are one and the same object, and its date column has been
replaced by the parsed (timezone-stripped) timestamps. -/
theorem C8_parse_dates_in_place (parse : DateParser) (df : DataFrame) (c : PyStr)
    (hc : c ∈ df.columns)
    (hp : ∀ v ∈ df.getColD c, (toDatetimeElem parse v).isSome) :
    ∃ df2, parse_dates parse df c = (df2, Except.ok df2) ∧
      df2 = df.setCol c (tzLocalizeNone
        ((df.getColD c).map (fun v => (toDatetimeElem parse v).getD Value.missing))) := by
  unfold parse_dates
  rw [if_pos hc]
  unfold toDatetimeStrict
  rw [mapM_option_eq_some (toDatetimeElem parse) Value.missing _ hp]
  exact ⟨_, rfl, rfl⟩

/-- Witness for C8: a one-row table whose date string parses to a
timezone-aware timestamp; the caller's object ends up with the
timezone-naive parsed timestamp in its date column. -/
theorem C8_witness :
    ∃ df2, parse_dates
        (fun s => if s = pstr "2023-01-01 10:00:00-04:00" then
          some ((1672567200 : Int), some (-14400 : Int)) else none)
        (DataFrame.mk [(pstr "date", [Value.str (pstr "2023-01-01 10:00:00-04:00")]),
          (pstr "stock", [Value.str (pstr "AAPL")])])
        (pstr "date") = (df2, Except.ok df2) ∧
      df2 = (DataFrame.mk [(pstr "date", [Value.str (pstr "2023-01-01 10:00:00-04:00")]),
          (pstr "stock", [Value.str (pstr "AAPL")])]).setCol (pstr "date")
        (tzLocalizeNone (((DataFrame.mk
          [(pstr "date", [Value.str (pstr "2023-01-01 10:00:00-04:00")]),
            (pstr "stock", [Value.str (pstr "AAPL")])]).getColD (pstr "date")).map
          (fun v => (toDatetimeElem
            (fun s => if s = pstr "2023-01-01 10:00:00-04:00" then
              some ((1672567200 : Int), some (-14400 : Int)) else none) v).getD
            Value.missing))) :=
  C8_parse_dates_in_place _ _ (pstr "date") (by decide) (by decide)

/-- C1 counterexample: the code's `parse_dates` offers no coerce variant and
no policy flag: on a table whose single date value is unparseable it fails
with a parse error — whereas the coerce behaviour the claim promises
(unparseable values become the missing marker, the operation always
succeeds) would have produced a missing marker, as the lenient coercion of
the same column shows. -/
theorem C1_counterexample :
    (parse_dates (fun _ => none)
        (DataFrame.mk [(pstr "date", [Value.str (pstr "not-a-date")])])
        (pstr "date")).2 = Except.error PyError.parseError ∧
      toDatetimeCoerce (fun _ => none)
        ((DataFrame.mk [(pstr "date", [Value.str (pstr "not-a-date")])]).getColD
          (pstr "date")) = [Value.missing] :=
  ⟨rfl, rfl⟩

/-- C1 (amended): `parse_dates` implements only the strict variant and has
no policy flag: when the target column exists, any unparseable value aborts
the whole operation with a parse error, and when every value parses the
operation succeeds with the column replaced by the parsed,
timezone-stripped timestamps. (The coerce policy appears in this repository
only inside `validate_data`/`load_data`, not as a `parse_dates` option.) -/
theorem C1_parse_dates_strict_only (parse : DateParser) (df : DataFrame) (c : PyStr)
    (hc : c ∈ df.columns) :
    ((∃ v ∈ df.getColD c, toDatetimeElem parse v = none) →
        (parse_dates parse df c).2 = Except.error PyError.parseError) ∧
      ((∀ v ∈ df.getColD c, (toDatetimeElem parse v).isSome) →
        (parse_dates parse df c).2 = Except.ok (df.setCol c (tzLocalizeNone
          ((df.getColD c).map (fun v => (toDatetimeElem parse v).getD Value.missing))))) := by
  constructor
  · intro h
    unfold parse_dates
    rw [if_pos hc]
    unfold toDatetimeStrict
    rw [mapM_option_eq_none (toDatetimeElem parse) _ h]
  · intro h
    unfold parse_dates
    rw [if_pos hc]
    unfold toDatetimeStrict
    rw [mapM_option_eq_some (toDatetimeElem parse) Value.missing _ h]

/-- Witness for C1 (amended), exercising both branches: a failing strict
parse on an unparseable value and a succeeding strict parse on a table whose
values all parse. -/
theorem C1_witness :
    (parse_dates (fun _ => none)
        (DataFrame.mk [(pstr "date", [Value.str (pstr "nope")])]) (pstr "date")).2 =
      Except.error PyError.parseError ∧
    (parse_dates (fun _ => some ((0 : Int), none))
        (DataFrame.mk [(pstr "date", [Value.str (pstr "1970-01-01")])]) (pstr "date")).2 =
      Except.ok ((DataFrame.mk [(pstr "date", [Value.str (pstr "1970-01-01")])]).setCol
        (pstr "date") (tzLocalizeNone
          (((DataFrame.mk [(pstr "date", [Value.str (pstr "1970-01-01")])]).getColD
            (pstr "date")).map (fun v => (toDatetimeElem
              (fun _ => some ((0 : Int), none)) v).getD Value.missing)))) :=
  ⟨(C1_parse_dates_strict_only (fun _ => none) _ (pstr "date") (by decide)).1
      ⟨Value.str (pstr "nope"), by decide, rfl⟩,
    (C1_parse_dates_strict_only (fun _ => some ((0 : Int), none)) _ (pstr "date")
      (by decide)).2 (by decide)⟩

/-! ### `firstDedup` enumerates the distinct values (helper lemmas) -/

theorem mem_firstDedup : ∀ (l : List Value) (a : Value), a ∈ firstDedup l ↔ a ∈ l
  | [], a => by simp [firstDedup]
  | b :: l, a => by
    rw [firstDedup]
    simp only [List.mem_cons]
    constructor
    · rintro (h | h)
      · exact Or.inl h
      · exact Or.inr (List.mem_filter.mp
          ((mem_firstDedup (l.filter (fun x => decide (x ≠ b))) a).mp h)).1
    · rintro (h | h)
      · exact Or.inl h
      · by_cases hab : a = b
        · exact Or.inl hab
        · exact Or.inr ((mem_firstDedup _ a).mpr
            (List.mem_filter.mpr ⟨h, by simp [hab]⟩))
termination_by l => l.length
decreasing_by
  all_goals simp only [List.length_cons]
  all_goals exact Nat.lt_succ_of_le (List.length_filter_le _ _)

theorem firstDedup_nodup : ∀ l : List Value, (firstDedup l).Nodup
  | [] => by simp [firstDedup]
  | b :: l => by
    rw [firstDedup]
    refine List.nodup_cons.mpr ⟨?_, firstDedup_nodup (l.filter (fun x => decide (x ≠ b)))⟩
    intro hmem
    have hb := (mem_firstDedup _ b).mp hmem
    simp [List.mem_filter] at hb
termination_by l => l.length
decreasing_by
  all_goals simp only [List.length_cons]
  all_goals exact Nat.lt_succ_of_le (List.length_filter_le _ _)

/-- The length of `firstDedup l` is the number of distinct values of `l`. -/
theorem firstDedup_length (l : List Value) :
    (firstDedup l).length = l.toFinset.card := by
  rw [← List.toFinset_card_of_nodup (firstDedup_nodup l)]
  congr 1
  ext a
  simp [List.mem_toFinset, mem_firstDedup]

/-- C2: for a table with all required columns present and null-free but with
at least one date value that fails lenient coercion, `validate_data` returns
invalid with a bad-dates sample of at most 5 distinct offending raw values,
and the ellipsis marker is set iff more than 5 distinct offending values
exist in the date column. -/
theorem C2_validate_data_bad_dates (parse : DateParser) (df : DataFrame)
    (hcols : ∀ c ∈ required_columns, c ∈ df.columns)
    (hnull : ∀ c ∈ required_columns, ∀ v ∈ df.getColD c, v ≠ Value.missing)
    (hbad : ∃ v ∈ df.getColD (pstr "date"),
      ((toDatetimeElem parse v).getD Value.missing).isMissing = true) :
    ∃ sample ell,
      validate_data parse df = (false, some (VError.badDates sample ell)) ∧
      sample.Nodup ∧ sample.length ≤ 5 ∧
      (∀ v ∈ sample, v ∈ df.getColD (pstr "date") ∧
        ((toDatetimeElem parse v).getD Value.missing).isMissing = true) ∧
      (ell = true ↔ 5 < ((df.getColD (pstr "date")).filter
        (fun v => ((toDatetimeElem parse v).getD Value.missing).isMissing)).toFinset.card) := by
  have hmc : required_columns.filter (fun c => decide (c ∉ df.columns)) = [] := by
    rw [List.filter_eq_nil_iff]
    intro c hc
    simp [hcols c hc]
  have hnc : (required_columns.map
      (fun c => (c, (df.getColD c).countP Value.isMissing))).filter
        (fun p => decide (0 < p.2)) = [] := by
    rw [List.filter_eq_nil_iff]
    intro p hp
    obtain ⟨c, hc, hpc⟩ := List.mem_map.mp hp
    have hz : (df.getColD c).countP Value.isMissing = 0 := by
      rw [List.countP_eq_zero]
      intro v hv
      have := hnull c hc v hv
      cases v <;> simp_all [Value.isMissing]
    simp [← hpc, hz]
  set off := (df.getColD (pstr "date")).filter
    (fun v => ((toDatetimeElem parse v).getD Value.missing).isMissing) with hoff
  have hbd : firstDedup off ≠ [] := by
    obtain ⟨v, hv, hmv⟩ := hbad
    have : v ∈ firstDedup off := by
      rw [mem_firstDedup, hoff]
      exact List.mem_filter.mpr ⟨hv, hmv⟩
    intro hcon
    rw [hcon] at this
    simp at this
  refine ⟨(firstDedup off).take 5, decide (5 < (firstDedup off).length), ?_, ?_, ?_, ?_, ?_⟩
  · simp only [validate_data]
    rw [← hoff, if_neg (fun hcon => hcon hmc), if_neg (fun hcon => hcon hnc), if_pos hbd]
  · exact (firstDedup_nodup off).sublist (List.take_sublist 5 _)
  · rw [List.length_take]
    exact min_le_left 5 _
  · intro v hv
    have hm : v ∈ firstDedup off := List.take_subset 5 _ hv
    have := List.mem_filter.mp ((mem_firstDedup off v).mp hm)
    exact ⟨this.1, this.2⟩
  · rw [decide_eq_true_iff, firstDedup_length]

/-- Witness for C2: all five required columns present and null-free, six
distinct unparseable date strings; the sample has 5 entries and the ellipsis
marker is set. -/
theorem C2_witness :
    ∃ sample ell,
      validate_data (fun _ => none)
        (DataFrame.mk
          [(pstr "headline", [Value.str (pstr "h1"), Value.str (pstr "h2"),
            Value.str (pstr "h3"), Value.str (pstr "h4"), Value.str (pstr "h5"),
            Value.str (pstr "h6")]),
           (pstr "url", [Value.str (pstr "u"), Value.str (pstr "u"),
            Value.str (pstr "u"), Value.str (pstr "u"), Value.str (pstr "u"),
            Value.str (pstr "u")]),
           (pstr "publisher", [Value.str (pstr "p"), Value.str (pstr "p"),
            Value.str (pstr "p"), Value.str (pstr "p"), Value.str (pstr "p"),
            Value.str (pstr "p")]),
           (pstr "date", [Value.str (pstr "b1"), Value.str (pstr "b2"),
            Value.str (pstr "b3"), Value.str (pstr "b4"), Value.str (pstr "b5"),
            Value.str (pstr "b6")]),
           (pstr "stock", [Value.str (pstr "s"), Value.str (pstr "s"),
            Value.str (pstr "s"), Value.str (pstr "s"), Value.str (pstr "s"),
            Value.str (pstr "s")])]) =
        (false, some (VError.badDates sample ell)) ∧
      sample.Nodup ∧ sample.length ≤ 5 ∧
      (∀ v ∈ sample, v ∈ (DataFrame.mk
          [(pstr "headline", [Value.str (pstr "h1"), Value.str (pstr "h2"),
            Value.str (pstr "h3"), Value.str (pstr "h4"), Value.str (pstr "h5"),
            Value.str (pstr "h6")]),
           (pstr "url", [Value.str (pstr "u"), Value.str (pstr "u"),
            Value.str (pstr "u"), Value.str (pstr "u"), Value.str (pstr "u"),
            Value.str (pstr "u")]),
           (pstr "publisher", [Value.str (pstr "p"), Value.str (pstr "p"),
            Value.str (pstr "p"), Value.str (pstr "p"), Value.str (pstr "p"),
            Value.str (pstr "p")]),
           (pstr "date", [Value.str (pstr "b1"), Value.str (pstr "b2"),
            Value.str (pstr "b3"), Value.str (pstr "b4"), Value.str (pstr "b5"),
            Value.str (pstr "b6")]),
           (pstr "stock", [Value.str (pstr "s"), Value.str (pstr "s"),
            Value.str (pstr "s"), Value.str (pstr "s"), Value.str (pstr "s"),
            Value.str (pstr "s")])]).getColD (pstr "date") ∧
        ((toDatetimeElem (fun _ => none) v).getD Value.missing).isMissing = true) ∧
      (ell = true ↔ 5 < (((DataFrame.mk
          [(pstr "headline", [Value.str (pstr "h1"), Value.str (pstr "h2"),
            Value.str (pstr "h3"), Value.str (pstr "h4"), Value.str (pstr "h5"),
            Value.str (pstr "h6")]),
           (pstr "url", [Value.str (pstr "u"), Value.str (pstr "u"),
            Value.str (pstr "u"), Value.str (pstr "u"), Value.str (pstr "u"),
            Value.str (pstr "u")]),
           (pstr "publisher", [Value.str (pstr "p"), Value.str (pstr "p"),
            Value.str (pstr "p"), Value.str (pstr "p"), Value.str (pstr "p"),
            Value.str (pstr "p")]),
           (pstr "date", [Value.str (pstr "b1"), Value.str (pstr "b2"),
            Value.str (pstr "b3"), Value.str (pstr "b4"), Value.str (pstr "b5"),
            Value.str (pstr "b6")]),
           (pstr "stock", [Value.str (pstr "s"), Value.str (pstr "s"),
            Value.str (pstr "s"), Value.str (pstr "s"), Value.str (pstr "s"),
            Value.str (pstr "s")])]).getColD (pstr "date")).filter
        (fun v => ((toDatetimeElem (fun _ => none) v).getD Value.missing).isMissing)).toFinset.card) :=
  C2_validate_data_bad_dates (fun _ => none) _ (by decide) (by decide)
    ⟨Value.str (pstr "b1"), by decide, by decide⟩

/-! ### Row/column duality of `dropna` (helper lemmas) -/

theorem list_all_ext {α : Type} (p q : α → Bool) :
    ∀ xs : List α, (∀ x ∈ xs, p x = q x) → xs.all p = xs.all q
  | [], _ => rfl
  | x :: xs, h => by
    rw [List.all_cons, List.all_cons, h x (List.mem_cons_self x xs),
      list_all_ext p q xs (fun y hy => h y (List.mem_cons_of_mem x hy))]

theorem getD_map_lt {α β : Type} (g : α → β) (d : β) (d0 : α) :
    ∀ (xs : List α) (j : Nat), j < xs.length → (xs.map g).getD j d = g (xs.getD j d0)
  | [], j, h => absurd h (by simp)
  | x :: xs, 0, _ => rfl
  | x :: xs, j+1, h => by
    simp only [List.map_cons, List.getD_cons_succ]
    exact getD_map_lt g d d0 xs j (by simpa using h)

theorem range_map_getD {α β : Type} (f : α → β) (d0 : α) :
    ∀ xs : List α, (List.range xs.length).map (fun j => f (xs.getD j d0)) = xs.map f
  | [] => rfl
  | x :: xs => by
    rw [List.length_cons, List.range_succ_eq_map, List.map_cons, List.map_map]
    have hc : ((fun j => f ((x :: xs).getD j d0)) ∘ Nat.succ) =
        fun j => f (xs.getD j d0) := rfl
    rw [hc, range_map_getD f d0 xs, List.map_cons]
    rfl

theorem filterIdx_eq : ∀ (vs : List Value) (k : Nat → Bool),
    filterIdx k vs =
      ((List.range vs.length).filter k).map (fun i => vs.getD i Value.missing)
  | [], k => rfl
  | v :: vs, k => by
    rw [filterIdx, List.length_cons, List.range_succ_eq_map, List.filter_cons,
      List.filter_map Nat.succ (List.range vs.length)]
    have h1 : (k ∘ Nat.succ) = fun i => k (i + 1) := rfl
    have h2 : ((fun i => (v :: vs).getD i Value.missing) ∘ Nat.succ) =
        fun i => vs.getD i Value.missing := rfl
    by_cases hk : k 0
    · rw [if_pos hk, if_pos hk, List.map_cons, List.map_map, h1, h2,
        filterIdx_eq vs (fun i => k (i + 1))]
      rfl
    · rw [if_neg hk, if_neg hk, List.map_map, h1, h2,
        filterIdx_eq vs (fun i => k (i + 1))]

/-- Looking a label up in row `i` is reading the cell at that label and
index. -/
theorem rowGet_row (df : DataFrame) (c : PyStr) (i : Nat) :
    rowGet (df.row i) c = df.cell c i := by
  unfold rowGet DataFrame.cell DataFrame.getColD DataFrame.row
  generalize df.cols = l
  induction l with
  | nil => rfl
  | cons p l ih =>
    by_cases h : p.1 = c
    · rw [List.map_cons, List.find?_cons_of_pos _ (by simp [h]),
        List.find?_cons_of_pos _ (by simp [h])]
      simp
    · rw [List.map_cons, List.find?_cons_of_neg _ (by simp [h]),
        List.find?_cons_of_neg _ (by simp [h])]
      exact ih

/-- The row-wise completeness predicate evaluated on row `i` is the cell-wise
row mask of `dropna`. -/
theorem keepRow_row (df : DataFrame) (subset : List PyStr) (i : Nat) :
    subset.all (fun c => !(rowGet (df.row i) c).isMissing) = keepRow df subset i := by
  unfold keepRow
  exact list_all_ext _ _ subset (fun c _ => by rw [rowGet_row])

/-- Row/column duality: dropping rows column-by-column with the shared mask
is, row-wise, filtering the rows by the completeness predicate. -/
theorem dropna_rows (df : DataFrame) (subset : List PyStr) (ha : df.Aligned) :
    (df.dropna subset).rows =
      df.rows.filter (fun r => subset.all (fun c => !(rowGet r c).isMissing)) := by
  have hfil : df.rows.filter (fun r => subset.all (fun c => !(rowGet r c).isMissing)) =
      ((List.range df.nRows).filter (keepRow df subset)).map df.row := by
    unfold DataFrame.rows
    rw [List.filter_map df.row (List.range df.nRows)]
    congr 1
    exact List.filter_congr (fun i _ => keepRow_row df subset i)
  rw [hfil]
  cases hcols : df.cols with
  | nil =>
    have h2 : df.nRows = 0 := by unfold DataFrame.nRows; rw [hcols]
    have h1 : (df.dropna subset).rows = [] := by
      unfold DataFrame.dropna DataFrame.rows DataFrame.nRows
      rw [hcols]
      rfl
    rw [h1, h2]
    rfl
  | cons p rest =>
    have hp : p ∈ df.cols := by rw [hcols]; exact List.mem_cons_self p rest
    have hp2 : p.2.length = df.nRows := ha p hp
    have hlen : (df.dropna subset).nRows =
        ((List.range df.nRows).filter (keepRow df subset)).length := by
      show (DataFrame.mk (df.cols.map
        (fun q => (q.1, filterIdx (keepRow df subset) q.2)))).nRows = _
      rw [hcols, List.map_cons]
      show (filterIdx (keepRow df subset) p.2).length = _
      rw [filterIdx_eq p.2 (keepRow df subset), hp2, List.length_map]
    have hrow : ∀ j < ((List.range df.nRows).filter (keepRow df subset)).length,
        (df.dropna subset).row j =
          df.row (((List.range df.nRows).filter (keepRow df subset)).getD j 0) := by
      intro j hj
      unfold DataFrame.row DataFrame.dropna
      rw [List.map_map]
      apply List.map_congr_left
      intro q hq
      simp only [Function.comp_apply]
      rw [filterIdx_eq q.2 (keepRow df subset), ha q hq,
        getD_map_lt (fun i => q.2.getD i Value.missing) Value.missing 0 _ j hj]
    unfold DataFrame.rows
    rw [hlen]
    rw [List.map_congr_left (fun j hj => hrow j (List.mem_range.mp hj))]
    exact range_map_getD df.row 0 _

/-- C6: when every name in `required_cols` is a column of the table,
`handle_missing_values` succeeds and returns the table whose rows are
exactly the input rows with no missing value in any required column, in
their original order, with the column set unchanged. -/
theorem C6_handle_missing_values_drops_rows (df : DataFrame) (rc : List PyStr)
    (ha : df.Aligned) (hsub : ∀ c ∈ rc, c ∈ df.columns) :
    ∃ out, handle_missing_values df (some rc) = Except.ok out ∧
      out.columns = df.columns ∧
      out.rows = df.rows.filter (fun r => rc.all (fun c => !(rowGet r c).isMissing)) := by
  have hmc : rc.filter (fun c => decide (c ∉ df.columns)) = [] := by
    rw [List.filter_eq_nil_iff]
    intro c hc
    simp [hsub c hc]
  refine ⟨df.dropna rc, ?_, ?_, dropna_rows df rc ha⟩
  · simp only [handle_missing_values, Option.getD_some]
    rw [if_pos hmc]
  · unfold DataFrame.dropna DataFrame.columns
    rw [List.map_map]
    rfl

/-- Witness for C6: a three-column table where the second of two rows has a
missing `date`; only the first row survives, columns and order intact. -/
theorem C6_witness :
    ∃ out, handle_missing_values
        (DataFrame.mk [(pstr "date", [Value.str (pstr "2023-01-01"), Value.missing]),
          (pstr "headline", [Value.str (pstr "a"), Value.str (pstr "b")]),
          (pstr "stock", [Value.str (pstr "AAPL"), Value.str (pstr "GOOGL")])])
        (some [pstr "date", pstr "headline", pstr "stock"]) = Except.ok out ∧
      out.columns = (DataFrame.mk [(pstr "date", [Value.str (pstr "2023-01-01"), Value.missing]),
          (pstr "headline", [Value.str (pstr "a"), Value.str (pstr "b")]),
          (pstr "stock", [Value.str (pstr "AAPL"), Value.str (pstr "GOOGL")])]).columns ∧
      out.rows = (DataFrame.mk [(pstr "date", [Value.str (pstr "2023-01-01"), Value.missing]),
          (pstr "headline", [Value.str (pstr "a"), Value.str (pstr "b")]),
          (pstr "stock", [Value.str (pstr "AAPL"), Value.str (pstr "GOOGL")])]).rows.filter
        (fun r => ([pstr "date", pstr "headline", pstr "stock"]).all
          (fun c => !(rowGet r c).isMissing)) :=
  C6_handle_missing_values_drops_rows _ [pstr "date", pstr "headline", pstr "stock"]
    (by unfold DataFrame.Aligned; decide) (by decide)
